import Mathlib

/-
Verification of the Action Orchestration Pipeline of the present-os backend.

The development shallowly embeds the Python sources:
  Backend/app/api/v1/endpoints/actions.py      (execute_ai_action)
  Backend/app/services/ai_skills/scheduling_skill.py
      (SchedulingSkill._get_paei_system_prompt, generate_schedule_event)
  Backend/app/services/google_service.py       (GoogleService.create_calendar_event)

Modelling conventions:
  * JSON values are the inductive `Json` below.  JSON numbers are modelled as
    unbounded integers (the pipeline never manipulates fractional numbers on
    the paths specified here); float values are not modelled.
  * Python exceptions are modelled as `Option`/sum results: `none` at an
    operation means the Python operation raises there.
  * External collaborators (goal store, AI provider, token store, symmetric
    decryption, calendar provider) are modelled by an environment `Env`
    recording the outcome of each external call, exactly as the endpoint
    observes them.
  * `datetime.datetime.fromisoformat` is modelled by `parseISO`, a parser for
    the subset YYYY-MM-DD[(T| )HH:MM[:SS]][(+|-)HH:MM] of ISO-8601 (no
    fractional seconds, ASCII digits, day-of-month validated only against
    1..31).  Absolute instants are integers counting UTC seconds since
    1970-01-01 (`toInstant`).
-/

/-- JSON values as manipulated by the pipeline.  Numbers are modelled as
unbounded integers; objects as association lists in insertion order (Python
dicts have unique keys; lookups take the first match). -/
inductive Json where
  | null : Json
  | bool : Bool → Json
  | int : Int → Json
  | str : String → Json
  | arr : List Json → Json
  | obj : List (String × Json) → Json

/-- Python truthiness (`bool(x)`) for the modelled JSON values. -/
def truthy : Json → Bool
  | .null => false
  | .bool b => b
  | .int n => n != 0
  | .str s => !s.toList.isEmpty
  | .arr xs => !xs.isEmpty
  | .obj kvs => !kvs.isEmpty

/-- First-match lookup in an association list (Python dict access). -/
def lookupKV : List (String × Json) → String → Option Json
  | [], _ => none
  | (k2, v) :: rest, k => if k2 = k then some v else lookupKV rest k

/-- Python `d.get(key)` with default `None`.  Returns `none` when the receiver
is not a dict (AttributeError: the attribute `.get` does not exist). -/
def pyGetAttr : Json → String → Option Json
  | .obj kvs, k => some ((lookupKV kvs k).getD .null)
  | _, _ => none

/-- Python subscript `d[key]` with a string key.  `none` models KeyError
(missing key on a dict) and TypeError (string subscript on a non-dict). -/
def pySubscript : Json → String → Option Json
  | .obj kvs, k => lookupKV kvs k
  | _, _ => none

/-- Prefix test on character lists (first argument is the pattern). -/
def listStarts : List Char → List Char → Bool
  | [], _ => true
  | _ :: _, [] => false
  | a :: as, b :: bs => a == b && listStarts as bs

/-- Substring test on character lists (first argument is the pattern),
modelling Python `sub in s` on strings. -/
def listHasSub (pat : List Char) : List Char → Bool
  | [] => listStarts pat []
  | c :: cs => listStarts pat (c :: cs) || listHasSub pat cs

/-- Python equality of a JSON value with a string literal (`x == "k"`):
true exactly for the equal string; values of other types compare unequal. -/
def jsonEqStr : Json → String → Bool
  | .str s, k => s == k
  | _, _ => false

/-- Python membership `k in x` for a string `k`: key lookup on dicts, element
equality on lists, substring on strings; `none` models the TypeError raised
on non-container values (None, booleans, numbers). -/
def pyContains (j : Json) (k : String) : Option Bool :=
  match j with
  | .obj kvs => some (kvs.any (fun kv => kv.1 == k))
  | .arr xs => some (xs.any (fun x => jsonEqStr x k))
  | .str s => some (listHasSub k.toList s.toList)
  | _ => none

/-- Python `all(k in j for k in ks)` with short-circuiting: stops at the
first `false` (later TypeErrors are then not raised); `none` models a
TypeError raised by a membership test that is reached. -/
def allKeysIn (j : Json) : List String → Option Bool
  | [] => some true
  | k :: rest =>
    match pyContains j k with
    | none => none
    | some false => some false
    | some true => allKeysIn j rest

/-- Digits-only decimal reading: `none` unless the list is a nonempty run of
ASCII digits. -/
def digitsToNat (cs : List Char) : Option Nat :=
  if cs.isEmpty then none
  else if cs.all Char.isDigit then
    some (cs.foldl (fun a c => 10 * a + (c.toNat - 48)) 0)
  else none

/-- Strip leading and trailing whitespace from a character list. -/
def stripWS (cs : List Char) : List Char :=
  ((cs.dropWhile Char.isWhitespace).reverse.dropWhile Char.isWhitespace).reverse

/-- Python `int(s)` on a string: optional sign, nonempty ASCII digit run,
surrounding whitespace ignored; `none` models the ValueError otherwise.
(Underscore digit separators and non-ASCII digits are not modelled.) -/
def parseIntStr (s : String) : Option Int :=
  match stripWS s.toList with
  | '+' :: ds => (digitsToNat ds).map (fun n => (n : Int))
  | '-' :: ds => (digitsToNat ds).map (fun n => -(n : Int))
  | ds => (digitsToNat ds).map (fun n => (n : Int))

/-- Python `int(x)` coercion on the modelled JSON values: identity on
integers, 0/1 on booleans, string parsing per `parseIntStr`; `none` models
the TypeError/ValueError raised on None, lists, dicts and bad strings. -/
def pyInt : Json → Option Int
  | .int n => some n
  | .bool b => some (if b then 1 else 0)
  | .str s => parseIntStr s
  | _ => none

/-- Python `str(x)` for the scalar JSON values; the rendering of lists and
dicts is not modelled precisely (the pipeline only formats scalar recurrence
rules on the specified paths). -/
def pyStr : Json → String
  | .str s => s
  | .int n => toString n
  | .bool b => if b then "True" else "False"
  | .null => "None"
  | .arr _ => "<list>"
  | .obj _ => "<dict>"

/-- Result of `datetime.datetime.fromisoformat`: a naive or offset-aware
calendar datetime.  `tzOffsetMinutes = none` models a naive datetime. -/
structure PyDateTime where
  year : Int
  month : Int
  day : Int
  hour : Int
  minute : Int
  second : Int
  tzOffsetMinutes : Option Int
deriving DecidableEq

/-- Parse the optional UTC-offset tail `(+|-)HH:MM`; `some none` is a naive
datetime (empty tail), `none` a parse failure (ValueError). -/
def parseOffsetTail (cs : List Char) : Option (Option Int) :=
  match cs with
  | [] => some none
  | sign :: oh1 :: oh2 :: ':' :: om1 :: om2 :: [] =>
    if sign = '+' ∨ sign = '-' then
      match digitsToNat [oh1, oh2], digitsToNat [om1, om2] with
      | some oh, some om =>
        if oh ≤ 23 ∧ om ≤ 59 then
          some (some ((if sign = '+' then (1 : Int) else -1) * ((oh : Int) * 60 + (om : Int))))
        else none
      | _, _ => none
    else none
  | _ => none

/-- Parse the optional seconds tail `[:SS]` followed by the offset tail. -/
def parseSecondsTail (cs : List Char) : Option (Nat × Option Int) :=
  match cs with
  | ':' :: s1 :: s2 :: rest =>
    match digitsToNat [s1, s2], parseOffsetTail rest with
    | some s, some off => if s ≤ 59 then some (s, off) else none
    | _, _ => none
  | _ =>
    match parseOffsetTail cs with
    | some off => some (0, off)
    | none => none

/-- Parse the optional time-of-day tail `(T| )HH:MM[:SS][offset]`; an empty
tail is midnight, naive. -/
def parseTimeTail (cs : List Char) : Option (Nat × Nat × Nat × Option Int) :=
  match cs with
  | [] => some (0, 0, 0, none)
  | sep :: h1 :: h2 :: ':' :: m1 :: m2 :: rest =>
    if sep = 'T' ∨ sep = ' ' then
      match digitsToNat [h1, h2], digitsToNat [m1, m2], parseSecondsTail rest with
      | some h, some mi, some (s, off) =>
        if h ≤ 23 ∧ mi ≤ 59 then some (h, mi, s, off) else none
      | _, _, _ => none
    else none
  | _ => none

/-- Model of `datetime.datetime.fromisoformat` on the subset
`YYYY-MM-DD[(T| )HH:MM[:SS]][(+|-)HH:MM]`; `none` models ValueError.
A bare trailing `Z` is rejected (the pre-3.11 behaviour the source works
around by rewriting `Z` before parsing). -/
def parseISO (s : String) : Option PyDateTime :=
  match s.toList with
  | y1 :: y2 :: y3 :: y4 :: '-' :: mo1 :: mo2 :: '-' :: d1 :: d2 :: rest =>
    match digitsToNat [y1, y2, y3, y4], digitsToNat [mo1, mo2],
          digitsToNat [d1, d2], parseTimeTail rest with
    | some y, some mo, some d, some (h, mi, sec, off) =>
      if 1 ≤ mo ∧ mo ≤ 12 ∧ 1 ≤ d ∧ d ≤ 31 then
        some ⟨(y : Int), (mo : Int), (d : Int), (h : Int), (mi : Int), (sec : Int), off⟩
      else none
    | _, _, _, _ => none
  | _ => none

/-- Days from 1970-01-01 to the given civil date (standard civil-calendar
day-count algorithm, truncating integer division as in the source's runtime). -/
def daysFromCivil (y m d : Int) : Int :=
  let y2 := if m ≤ 2 then y - 1 else y
  let era := (if 0 ≤ y2 then y2 else y2 - 399) / 400
  let yoe := y2 - era * 400
  let mp := if 2 < m then m - 3 else m + 9
  let doy := (153 * mp + 2) / 5 + d - 1
  let doe := yoe * 365 + yoe / 4 - yoe / 100 + doy
  era * 146097 + doe - 719468

/-- UTC seconds since 1970-01-01 of a parsed datetime; a naive datetime is
interpreted as UTC (modelling the `replace(tzinfo=timezone.utc)` fixup the
endpoint applies to naive parses). -/
def toInstant (dt : PyDateTime) : Int :=
  daysFromCivil dt.year dt.month dt.day * 86400
    + dt.hour * 3600 + dt.minute * 60 + dt.second
    - (dt.tzOffsetMinutes.getD 0) * 60

/-- Last-character test on character lists, modelling `s.endswith("Z")`. -/
def endsWithZ : List Char → Bool
  | [] => false
  | [c] => c == 'Z'
  | _ :: c :: cs => endsWithZ (c :: cs)

/-- The endpoint's Zulu-suffix rewrite: `s[:-1] + "+00:00"` when the string
ends in `Z` (actions.py lines 86-87). -/
def normalizeZ (s : String) : String :=
  if endsWithZ s.toList then String.mk (s.toList.dropLast ++ "+00:00".toList) else s

/-- Start-time resolution of actions.py lines 84-96 applied to the raw JSON
value of `start_time_iso`: on a string, rewrite a trailing `Z`, parse, treat
a naive parse as UTC, and on ValueError fall back to `now + 1 minute`; on a
non-string value the attribute access `.endswith` raises AttributeError
(modelled as `none`), which the `except ValueError` clause does not catch. -/
def resolveStart (v : Json) (now : Int) : Option Int :=
  match v with
  | .str s =>
    some (match parseISO (normalizeZ s) with
      | some dt => toInstant dt
      | none => now + 60)
  | _ => none

/-- Full time resolution (spec component EventTimeResolver): the resolved
start instant paired with `end = start + 60 * duration_minutes`
(actions.py line 99). -/
def eventTimeResolve (v : Json) (durationMinutes : Int) (now : Int) : Option (Int × Int) :=
  (resolveStart v now).map (fun s => (s, s + 60 * durationMinutes))

/-- The goal record as read from the goal store (models app.models.goal.GoalInDB
as consumed by the prompt builder: name, optional avatar, optional description). -/
structure GoalInDB where
  name : String
  avatar : Option String
  description : Option String

/-- Python `x or default` on an optional string: the default is taken when the
value is absent (None) or falsy (empty string). -/
def pyOrStr (v : Option String) (d : String) : String :=
  match v with
  | some s => if s.toList.isEmpty then d else s
  | none => d

/-- The base instruction of SchedulingSkill._get_paei_system_prompt
(scheduling_skill.py lines 21-33), with the goal fields interpolated. -/
def base_prompt (goal : GoalInDB) : String :=
  "\n        You are an AI assistant for the \x27Present OS\x27. Your role is to help a user schedule tasks\n        that align with their high-level goals.\n        \n        The user\x27s task must be framed in the context of this GOAL:\n        GOAL NAME: "
    ++ goal.name
    ++ "\n        GOAL AVATAR: "
    ++ pyOrStr goal.avatar "Default"
    ++ "\n        GOAL DESCRIPTION: "
    ++ pyOrStr goal.description "None"
    ++ "\n\n        You MUST act with a specific personality (PAEI).\n        You MUST generate a JSON response with \x27title\x27, \x27description\x27, and \x27duration_minutes\x27.\n        The \x27description\x27 MUST reference the user\x27s GOAL.\n        "

/-- Personality block appended for Producer (scheduling_skill.py lines 36-41). -/
def producerBlock : String :=
  "\n            YOUR PERSONALITY IS (P)RODUCER:\n            - Focus: Short-term Effectiveness.\n            - Tone: Direct, action-oriented, urgent.\n            - Job: Get this task done NOW. The title should be punchy.\n            "

/-- Personality block appended for Administrator (lines 43-48). -/
def administratorBlock : String :=
  "\n            YOUR PERSONALITY IS (A)DMINISTRATOR:\n            - Focus: Short-term Efficiency.\n            - Tone: Systematic, organized, precise.\n            - Job: Schedule this task logically. The title must be clear and structured.\n            "

/-- Personality block appended for Entrepreneur (lines 50-55). -/
def entrepreneurBlock : String :=
  "\n            YOUR PERSONALITY IS (E)NTREPRENEUR:\n            - Focus: Long-term Effectiveness.\n            - Tone: Visionary, creative, inspiring.\n            - Job: Frame this task as a step towards a bigger future. The title should be inspiring.\n            "

/-- Personality block appended for Integrator (lines 57-62). -/
def integratorBlock : String :=
  "\n            YOUR PERSONALITY IS (I)NTEGRATOR:\n            - Focus: Long-term Efficiency (Harmony).\n            - Tone: Collaborative, empathetic, supportive.\n            - Job: Frame this task as an act of self-care or connection. The title should be gentle.\n            "

/-- Python `s.upper()`: character-wise upper-casing (ASCII-faithful model). -/
def strUpper (s : String) : String :=
  String.mk (s.toList.map Char.toUpper)

/-- SchedulingSkill._get_paei_system_prompt (spec component
PersonalityPromptBuilder): case-insensitive dispatch on the personality code
via `personality.upper()`, returning the base instruction alone on any
unrecognised code (scheduling_skill.py lines 18-64). -/
def get_paei_system_prompt (personality : String) (goal : GoalInDB) : String :=
  if strUpper personality = "P" then base_prompt goal ++ producerBlock
  else if strUpper personality = "A" then base_prompt goal ++ administratorBlock
  else if strUpper personality = "E" then base_prompt goal ++ entrepreneurBlock
  else if strUpper personality = "I" then base_prompt goal ++ integratorBlock
  else base_prompt goal

/-- Outcome of SchedulingSkill.generate_schedule_event: a returned plan value,
or the ValueError raised after any failure (spec failure GenerationError). -/
inductive GenOutcome where
  | plan (p : Json) : GenOutcome
  | genError : GenOutcome

/-- Validation core of SchedulingSkill.generate_schedule_event
(scheduling_skill.py lines 77-93; spec component PlanGenerator).  The upstream
call and `json.loads(response.text)` are modelled by their outcome: `none`
when the response text is not valid JSON (json.loads raises, caught by the
blanket except and re-raised as the generation error), `some v` when it parses
to the value `v`.  The required-keys check uses Python membership `k in v`,
whose TypeError on non-container values is likewise caught by the blanket
except and re-raised as the generation error. -/
def generate_schedule_event (parsed : Option Json) : GenOutcome :=
  match parsed with
  | none => .genError
  | some event_data =>
    match allKeysIn event_data ["title", "description", "duration_minutes"] with
    | some true => .plan event_data
    | _ => .genError

/-- The event record GoogleService.create_calendar_event submits to the
calendar provider (google_service.py lines 123-139).  Start and end are the
absolute instants passed in (their RFC3339 stringification is not modelled);
`recurrence = none` means the `recurrence` key is absent from the record. -/
structure GEvent where
  summary : Json
  description : Json
  startTime : Int
  endTime : Int
  recurrence : Option (List String)

/-- Event-record construction of GoogleService.create_calendar_event: the
`recurrence` key is added only when the argument is truthy, i.e. present and
a nonempty list (google_service.py lines 136-139). -/
def create_calendar_event (title description : Json) (start_time end_time : Int)
    (recurrence : Option (List String)) : GEvent :=
  { summary := title
    description := description
    startTime := start_time
    endTime := end_time
    recurrence :=
      match recurrence with
      | some r => if r.isEmpty then none else some r
      | none => none }

/-- External calls made by the endpoint, in program order; the calendar call
records the event record submitted to the provider. -/
inductive ExtCall where
  | fetchGoal : ExtCall
  | aiCall : ExtCall
  | tokenFetch : ExtCall
  | decryptTok : ExtCall
  | calendarCreate (ev : GEvent) : ExtCall

/-- Outcome of the AIService.execute_task call as observed by the endpoint:
a returned result value, an HTTPException carrying a client-facing status
(re-raised unchanged, actions.py lines 50-51), or any other exception
(wrapped as a 500, lines 52-54). -/
inductive CallResult where
  | ok (ai_result : Json) : CallResult
  | httpExc (status : Nat) (detail : String) : CallResult
  | exc (msg : String) : CallResult

/-- HTTP outcome of one request: the 201 success body of actions.py lines
117-122, or an HTTPException status/detail. -/
inductive HRes where
  | success (message : String) (event_title event_link : Json)
      (recurrence_applied : Bool) : HRes
  | error (status : Nat) (detail : String) : HRes

/-- Status code of an outcome (the route is declared with status 201). -/
def HRes.statusOf : HRes → Nat
  | .success _ _ _ _ => 201
  | .error s _ => s

/-- Outcomes of the external collaborators for one request, exactly as the
endpoint observes them.  `none` on `goalFetch`/`tokenFetch` models the lookup
raising; `some none` models it returning an absent/falsy value.  `decryptRes
= none` models TokenSecurity.decrypt returning a falsy value.  `calendarRes`
is the provider outcome (`Except.error` for any exception escaping
GoogleService.create_calendar_event, whose internal handler re-raises). -/
structure Env where
  goalFetch : Option (Option Json)
  aiCall : CallResult
  tokenFetch : Option (Option String)
  decryptRes : Option String
  now : Int
  calendarRes : Except String Json

/-- Detail string of the 500 raised when an uncaught exception escapes the
schedule_task block (actions.py lines 125-127); the interpolated Python
exception text is abridged to a fixed placeholder. -/
def calendarExcDetail : String := "Failed to create calendar event: <exception>"

/-- Detail string of the 500 raised when the goal lookup itself raises
(actions.py lines 33-35), with the exception text abridged. -/
def goalExcDetail : String := "Error fetching goal: <exception>"

/-- Detail string actually produced for an absent goal: the 404 HTTPException
raised at actions.py line 32 is caught by the `except Exception` clause of the
same try block and re-raised as a 500 whose detail interpolates
`str(HTTPException)`, i.e. `"404: <detail>"`. -/
def goalAbsentDetail : String :=
  "Error fetching goal: 404: Goal not found. Please create the goal first."

/-- The schedule_task branch of execute_ai_action (actions.py lines 57-127),
given the AI result; returns the HTTP outcome and the trace of external calls
made from the start of the request. -/
def scheduleTask (env : Env) (ai_result : Json) : HRes × List ExtCall :=
  match env.tokenFetch with
  | none => (.error 500 calendarExcDetail, [.fetchGoal, .aiCall, .tokenFetch])
  | some none =>
    (.error 401 "User has not authorized Google Calendar.",
      [.fetchGoal, .aiCall, .tokenFetch])
  | some (some _encrypted_token) =>
    match env.decryptRes with
    | none =>
      (.error 401 "Could not decrypt calendar token.",
        [.fetchGoal, .aiCall, .tokenFetch, .decryptTok])
    | some _refresh_token =>
      match pyGetAttr ai_result "data" with
      | none =>
        (.error 500 calendarExcDetail, [.fetchGoal, .aiCall, .tokenFetch, .decryptTok])
      | some event_data =>
        if !truthy event_data then
          (.error 500 "AI failed to return valid event data.",
            [.fetchGoal, .aiCall, .tokenFetch, .decryptTok])
        else
          match allKeysIn event_data
              ["title", "description", "duration_minutes", "start_time_iso"] with
          | none =>
            (.error 500 calendarExcDetail,
              [.fetchGoal, .aiCall, .tokenFetch, .decryptTok])
          | some false =>
            (.error 500 "AI failed to return valid event data.",
              [.fetchGoal, .aiCall, .tokenFetch, .decryptTok])
          | some true =>
            match pySubscript event_data "duration_minutes" with
            | none =>
              (.error 500 calendarExcDetail,
                [.fetchGoal, .aiCall, .tokenFetch, .decryptTok])
            | some durVal =>
              match pyInt durVal with
              | none =>
                (.error 500 calendarExcDetail,
                  [.fetchGoal, .aiCall, .tokenFetch, .decryptTok])
              | some duration_minutes =>
                match pySubscript event_data "start_time_iso" with
                | none =>
                  (.error 500 calendarExcDetail,
                    [.fetchGoal, .aiCall, .tokenFetch, .decryptTok])
                | some startVal =>
                  match pyGetAttr event_data "recurrence_rrule" with
                  | none =>
                    (.error 500 calendarExcDetail,
                      [.fetchGoal, .aiCall, .tokenFetch, .decryptTok])
                  | some rrVal =>
                    match resolveStart startVal env.now with
                    | none =>
                      (.error 500 calendarExcDetail,
                        [.fetchGoal, .aiCall, .tokenFetch, .decryptTok])
                    | some start_time =>
                      let end_time := start_time + 60 * duration_minutes
                      let recurrence_list : Option (List String) :=
                        if truthy rrVal then some ["RRULE:" ++ pyStr rrVal] else none
                      let ev := create_calendar_event
                        ((pyGetAttr event_data "title").getD .null)
                        ((pyGetAttr event_data "description").getD .null)
                        start_time end_time recurrence_list
                      let trace :=
                        [.fetchGoal, .aiCall, .tokenFetch, .decryptTok,
                          .calendarCreate ev]
                      match env.calendarRes with
                      | .error _ => (.error 500 calendarExcDetail, trace)
                      | .ok created_event =>
                        match pyGetAttr created_event "summary",
                              pyGetAttr created_event "htmlLink" with
                        | some s, some l =>
                          (.success "Task scheduled successfully" s l
                            (match recurrence_list with
                              | some rl => !rl.isEmpty
                              | none => false), trace)
                        | _, _ => (.error 500 calendarExcDetail, trace)

/-- The action endpoint execute_ai_action (actions.py lines 17-131; spec
component ActionOrchestrator): goal fetch, AI call, then dispatch on the task
type.  Returns the HTTP outcome and the trace of external calls. -/
def execute_ai_action (env : Env) (task_type : String) : HRes × List ExtCall :=
  match env.goalFetch with
  | none => (.error 500 goalExcDetail, [.fetchGoal])
  | some none => (.error 500 goalAbsentDetail, [.fetchGoal])
  | some (some _goal) =>
    match env.aiCall with
    | .httpExc st d => (.error st d, [.fetchGoal, .aiCall])
    | .exc m => (.error 500 ("Error in AI service: " ++ m), [.fetchGoal, .aiCall])
    | .ok ai_result =>
      if task_type = "schedule_task" then
        scheduleTask env ai_result
      else
        (.error 400 "Action executed but no output was produced.",
          [.fetchGoal, .aiCall])


/-- A generated plan containing all four calendar-required fields and a
Zulu-suffixed timestamp. -/
def goodPlan : Json :=
  .obj [("title", .str "T"), ("description", .str "D"),
        ("duration_minutes", .int 30),
        ("start_time_iso", .str "2025-01-01T10:00:00Z")]

/-- Environment in which every collaborator succeeds and the AI call returns
the given plan as the `data` field of its result. -/
def mkEnv (d : Json) : Env :=
  { goalFetch := some (some (.obj [("name", .str "G")]))
    aiCall := .ok (.obj [("data", d)])
    tokenFetch := some (some "enc")
    decryptRes := some "tok"
    now := 0
    calendarRes := .ok (.obj [("summary", .str "T"), ("htmlLink", .str "http://x")]) }

/-- Whether a membership test raises depends only on the shape of the tested
value, not on the key: if one key tests without a TypeError, all keys do. -/
lemma pyContains_isSome_all {d : Json} {k : String}
    (h : (pyContains d k).isSome) (k2 : String) : (pyContains d k2).isSome := by
  cases d <;> simp [pyContains] at h ⊢

/-- If no membership test on `d` raises and some listed key is missing from
`d`, the short-circuiting conjunction of membership tests yields `false`. -/
lemma allKeysIn_some_false {d : Json} (hs : ∀ k, (pyContains d k).isSome)
    {ks : List String} {k0 : String} (hmem : k0 ∈ ks)
    (hf : pyContains d k0 = some false) : allKeysIn d ks = some false := by
  induction ks with
  | nil => cases hmem
  | cons a rest ih =>
    rcases List.mem_cons.mp hmem with rfl | hr
    · simp [allKeysIn, hf]
    · obtain ⟨b, hb⟩ := Option.isSome_iff_exists.mp (hs a)
      cases b
      · simp [allKeysIn, hb]
      · simp [allKeysIn, hb, ih hr]

/-- C1: whenever the goal store returns absent for `(user_id, goal_id)`, the
endpoint fails before the AI call is made, but with HTTP 500, not 404: the
`raise HTTPException(404)` at actions.py line 32 sits inside the try block
whose `except Exception` clause (line 33) catches it and re-raises it as the
500 of line 35.  The trace `[fetchGoal]` shows the AI call is never made. -/
theorem c1_goal_absent_is_500_before_ai (env : Env) (task_type : String)
    (h : env.goalFetch = some none) :
    (execute_ai_action env task_type).1 = HRes.error 500 goalAbsentDetail ∧
    (execute_ai_action env task_type).2 = [ExtCall.fetchGoal] := by
  simp [execute_ai_action, h]

/-- Witness for C1 at a concrete environment in which the goal store returns
absent. -/
theorem c1_goal_absent_is_500_before_ai_witness :
    ({ goalFetch := some none, aiCall := .ok .null, tokenFetch := some none,
       decryptRes := none, now := 0, calendarRes := .error "e" } : Env).goalFetch
        = some none ∧
    ((execute_ai_action
        { goalFetch := some none, aiCall := .ok .null, tokenFetch := some none,
          decryptRes := none, now := 0, calendarRes := .error "e" }
        "schedule_task").1 = HRes.error 500 goalAbsentDetail ∧
      (execute_ai_action
        { goalFetch := some none, aiCall := .ok .null, tokenFetch := some none,
          decryptRes := none, now := 0, calendarRes := .error "e" }
        "schedule_task").2 = [ExtCall.fetchGoal]) :=
  ⟨rfl, c1_goal_absent_is_500_before_ai _ "schedule_task" rfl⟩

/-- C3: counterexample to rejection of every JSON-array response.  The raw
response text `["title", "description", "duration_minutes"]` is valid JSON
parsing to an array whose elements are exactly the three required key names;
Python membership `k in list` tests element equality, so the required-keys
check of scheduling_skill.py line 85 passes and the array is returned as the
plan, contradicting the function's own `-> dict` declaration and the claimed
GenerationError. -/
theorem c3_key_named_array_accepted :
    generate_schedule_event
      (some (Json.arr [.str "title", .str "description", .str "duration_minutes"]))
      = GenOutcome.plan
          (Json.arr [.str "title", .str "description", .str "duration_minutes"]) := rfl

/-- C6: resolving the timestamp `2025-01-01T10:00:00Z` with duration 30: the
trailing `Z` is rewritten to `+00:00` before parsing, and for every clock
value the resolver yields start 2025-01-01T10:00:00 UTC and end
2025-01-01T10:30:00 UTC (`end = start + duration` in minutes); the fallback
branch is not taken. -/
theorem c6_zulu_resolution :
    normalizeZ "2025-01-01T10:00:00Z" = "2025-01-01T10:00:00+00:00" ∧
    ∀ now : Int, eventTimeResolve (Json.str "2025-01-01T10:00:00Z") 30 now =
      some (toInstant ⟨2025, 1, 1, 10, 0, 0, some 0⟩,
            toInstant ⟨2025, 1, 1, 10, 30, 0, some 0⟩) := by
  exact ⟨rfl, fun _ => rfl⟩

/-- C7: when the goal is found, the AI call succeeds, and the credential
store then returns absent, the endpoint fails with HTTP 401, and the trace
`[fetchGoal, aiCall, tokenFetch]` shows the AI call strictly precedes the
credential lookup and that no calendar call is attempted. -/
theorem c7_ai_precedes_credential_check (env : Env) (g a : Json)
    (hg : env.goalFetch = some (some g))
    (ha : env.aiCall = CallResult.ok a)
    (ht : env.tokenFetch = some none) :
    (execute_ai_action env "schedule_task").1 =
      HRes.error 401 "User has not authorized Google Calendar." ∧
    (execute_ai_action env "schedule_task").2 =
      [ExtCall.fetchGoal, ExtCall.aiCall, ExtCall.tokenFetch] := by
  simp [execute_ai_action, scheduleTask, hg, ha, ht]

/-- Witness for C7 at a concrete environment with an absent credential. -/
theorem c7_ai_precedes_credential_check_witness :
    ({ goalFetch := some (some (.obj [("name", .str "G")])),
       aiCall := .ok (.obj [("data", goodPlan)]), tokenFetch := some none,
       decryptRes := none, now := 0, calendarRes := .error "e" } : Env).goalFetch
        = some (some (.obj [("name", .str "G")])) ∧
    (execute_ai_action
        { goalFetch := some (some (.obj [("name", .str "G")])),
          aiCall := .ok (.obj [("data", goodPlan)]), tokenFetch := some none,
          decryptRes := none, now := 0, calendarRes := .error "e" }
        "schedule_task").1 =
      HRes.error 401 "User has not authorized Google Calendar." :=
  ⟨rfl, (c7_ai_precedes_credential_check _ _ _ rfl rfl rfl).1⟩

/-- C9: for every personality code whose upper-casing is none of `P`, `A`,
`E`, `I`, the prompt builder returns exactly the base instruction with no
personality block appended (it is a total function, so it returns a string on
every input). -/
theorem c9_unrecognized_personality_base_prompt (p : String) (g : GoalInDB)
    (hp : strUpper p ≠ "P") (ha : strUpper p ≠ "A")
    (he : strUpper p ≠ "E") (hi : strUpper p ≠ "I") :
    get_paei_system_prompt p g = base_prompt g := by
  simp [get_paei_system_prompt, hp, ha, he, hi]

/-- Witness for C9 at the unrecognised personality code `x`. -/
theorem c9_unrecognized_personality_base_prompt_witness :
    (strUpper "x" ≠ "P" ∧ strUpper "x" ≠ "A" ∧ strUpper "x" ≠ "E" ∧
      strUpper "x" ≠ "I") ∧
    get_paei_system_prompt "x" ⟨"G", none, none⟩ = base_prompt ⟨"G", none, none⟩ :=
  ⟨⟨by decide, by decide, by decide, by decide⟩,
    c9_unrecognized_personality_base_prompt "x" ⟨"G", none, none⟩
      (by decide) (by decide) (by decide) (by decide)⟩

/-- A generated plan with title, description and duration but no
`start_time_iso` key. -/
def planNoStart : Json :=
  .obj [("title", .str "T"), ("description", .str "D"),
        ("duration_minutes", .int 30)]

/-- C2 counterexample: with every collaborator succeeding, a plan lacking
`start_time_iso` does not fall back to `now + 1 minute`; the endpoint rejects
it with the 500 of actions.py line 76 and the trace shows no calendar call is
made, so scheduling does not proceed. -/
theorem c2_counterexample_missing_start_fails :
    (execute_ai_action (mkEnv planNoStart) "schedule_task").1 =
      HRes.error 500 "AI failed to return valid event data." ∧
    (execute_ai_action (mkEnv planNoStart) "schedule_task").2 =
      [ExtCall.fetchGoal, ExtCall.aiCall, ExtCall.tokenFetch, ExtCall.decryptTok] :=
  ⟨rfl, rfl⟩

/-- C2 amended: for every schedule_task request whose generated plan lacks the
`start_time_iso` key, the required-keys validation of actions.py lines 74-76
fails the request with HTTP 500 before time resolution is reached; no
calendar call is made.  The `now + 1 minute` fallback applies only when
`start_time_iso` is present but unparsable. -/
theorem c2_missing_start_rejected (env : Env) (g a d : Json) (etok rtok : String)
    (hg : env.goalFetch = some (some g))
    (ha : env.aiCall = CallResult.ok a)
    (hd : pyGetAttr a "data" = some d)
    (ht : env.tokenFetch = some (some etok))
    (hdec : env.decryptRes = some rtok)
    (hf : pyContains d "start_time_iso" = some false) :
    (execute_ai_action env "schedule_task").1 =
      HRes.error 500 "AI failed to return valid event data." ∧
    (execute_ai_action env "schedule_task").2 =
      [ExtCall.fetchGoal, ExtCall.aiCall, ExtCall.tokenFetch, ExtCall.decryptTok] := by
  have hs : ∀ k, (pyContains d k).isSome := fun k =>
    @pyContains_isSome_all d "start_time_iso" (by simp [hf]) k
  have hkeys : allKeysIn d
      ["title", "description", "duration_minutes", "start_time_iso"] = some false :=
    allKeysIn_some_false hs (by simp) hf
  cases htr : truthy d
  · constructor <;> simp [execute_ai_action, scheduleTask, hg, ha, hd, ht, hdec, htr]
  · constructor <;>
      simp [execute_ai_action, scheduleTask, hg, ha, hd, ht, hdec, htr, hkeys]

/-- Witness for the amended C2 at a concrete plan lacking `start_time_iso`. -/
theorem c2_missing_start_rejected_witness :
    pyContains planNoStart "start_time_iso" = some false ∧
    ((execute_ai_action (mkEnv planNoStart) "schedule_task").1 =
        HRes.error 500 "AI failed to return valid event data." ∧
      (execute_ai_action (mkEnv planNoStart) "schedule_task").2 =
        [ExtCall.fetchGoal, ExtCall.aiCall, ExtCall.tokenFetch, ExtCall.decryptTok]) :=
  ⟨rfl, c2_missing_start_rejected (mkEnv planNoStart) _ _ planNoStart "enc" "tok"
    rfl rfl rfl rfl rfl rfl⟩

/-- A generated plan whose `start_time_iso` value is the JSON number 5. -/
def planIntStart : Json :=
  .obj [("title", .str "T"), ("description", .str "D"),
        ("duration_minutes", .int 30), ("start_time_iso", .int 5)]

/-- C4 counterexample: resolution is not total over arbitrary JSON values of
`start_time_iso`.  On the JSON number 5 the attribute access
`start_time_str.endswith("Z")` (actions.py line 86) raises AttributeError,
which the `except ValueError` clause does not catch; resolution does not
complete, and with every collaborator succeeding the request fails with the
generic 500 of line 127 instead of returning a window. -/
theorem c4_counterexample_nonstring_start_raises :
    resolveStart (Json.int 5) 0 = none ∧
    (execute_ai_action (mkEnv planIntStart) "schedule_task").1 =
      HRes.error 500 calendarExcDetail ∧
    (execute_ai_action (mkEnv planIntStart) "schedule_task").2 =
      [ExtCall.fetchGoal, ExtCall.aiCall, ExtCall.tokenFetch, ExtCall.decryptTok] :=
  ⟨rfl, rfl, rfl⟩

/-- C4 amended: for every plan whose `start_time_iso` value is a string —
whatever its contents — and every duration and clock value, time resolution
completes without raising and returns a start/end window (parse failures take
the `now + 1 minute` fallback); totality holds only over strings, not over
arbitrary JSON values. -/
theorem c4_resolve_total_on_strings (s : String) (dur now : Int) :
    (eventTimeResolve (Json.str s) dur now).isSome := by
  simp [eventTimeResolve, resolveStart]

/-- A generated plan whose `duration_minutes` is the non-numeric string
`abc`; all four required keys are present. -/
def planBadDur : Json :=
  .obj [("title", .str "T"), ("description", .str "D"),
        ("duration_minutes", .str "abc"),
        ("start_time_iso", .str "2025-01-01T10:00:00Z")]

/-- C5 counterexample: a plan whose `duration_minutes` is the string `abc`
passes the required-keys validation (first conjunct), yet with every
collaborator succeeding the pipeline fails with a 500 — `int("abc")` at
actions.py line 79 raises ValueError, caught only by the outer
`except Exception` — and no calendar call is made. -/
theorem c5_counterexample_bad_duration_fails :
    allKeysIn planBadDur
      ["title", "description", "duration_minutes", "start_time_iso"] = some true ∧
    (execute_ai_action (mkEnv planBadDur) "schedule_task").1 =
      HRes.error 500 calendarExcDetail ∧
    (execute_ai_action (mkEnv planBadDur) "schedule_task").2 =
      [ExtCall.fetchGoal, ExtCall.aiCall, ExtCall.tokenFetch, ExtCall.decryptTok] :=
  ⟨rfl, rfl, rfl⟩

/-- Reduction of the dict-getter on an object value. -/
lemma pyGetAttr_obj (kvs : List (String × Json)) (k : String) :
    pyGetAttr (Json.obj kvs) k = some ((lookupKV kvs k).getD .null) := rfl

/-- Reduction of the dict subscript on an object value. -/
lemma pySubscript_obj (kvs : List (String × Json)) (k : String) :
    pySubscript (Json.obj kvs) k = lookupKV kvs k := rfl

/-- C5 amended: `duration_minutes` is coerced with Python `int()`; whenever
the coercion succeeds (integers, booleans, integral strings) the pipeline
proceeds to the calendar call and the submitted window satisfies
`end = start + 60 * n` seconds for the coerced value `n`.  Forms `int()`
rejects (e.g. the string `abc`) instead fail the request with HTTP 500, per
the counterexample. -/
theorem c5_coerced_duration_window (env : Env) (g a : Json)
    (kvs : List (String × Json)) (dv : Json) (n : Int) (s etok rtok : String)
    (hg : env.goalFetch = some (some g))
    (ha : env.aiCall = CallResult.ok a)
    (hd : pyGetAttr a "data" = some (Json.obj kvs))
    (ht : env.tokenFetch = some (some etok))
    (hdec : env.decryptRes = some rtok)
    (hkeys : allKeysIn (Json.obj kvs)
      ["title", "description", "duration_minutes", "start_time_iso"] = some true)
    (hdv : lookupKV kvs "duration_minutes" = some dv)
    (hn : pyInt dv = some n)
    (hsv : lookupKV kvs "start_time_iso" = some (Json.str s)) :
    ∃ ev : GEvent,
      (execute_ai_action env "schedule_task").2 =
        [ExtCall.fetchGoal, ExtCall.aiCall, ExtCall.tokenFetch, ExtCall.decryptTok,
          ExtCall.calendarCreate ev] ∧
      ev.endTime = ev.startTime + 60 * n := by
  have htr : truthy (Json.obj kvs) = true := by
    cases kvs with
    | nil => simp [lookupKV] at hdv
    | cons p ps => simp [truthy]
  rcases hcr : env.calendarRes with m | c
  · simp [execute_ai_action, scheduleTask, hg, ha, hd, ht, hdec, hcr, htr, hkeys,
      pySubscript_obj, pyGetAttr_obj, hdv, hn, hsv, resolveStart, create_calendar_event]
  · rcases hs1 : pyGetAttr c "summary" with _ | s1 <;>
      rcases hs2 : pyGetAttr c "htmlLink" with _ | l1 <;>
      simp [execute_ai_action, scheduleTask, hg, ha, hd, ht, hdec, hcr, htr, hkeys,
        pySubscript_obj, pyGetAttr_obj, hdv, hn, hsv, resolveStart, hs1, hs2,
        create_calendar_event]

/-- Witness for the amended C5 at a concrete plan with integer duration 30. -/
theorem c5_coerced_duration_window_witness :
    pyInt (Json.int 30) = some 30 ∧
    ∃ ev : GEvent,
      (execute_ai_action (mkEnv goodPlan) "schedule_task").2 =
        [ExtCall.fetchGoal, ExtCall.aiCall, ExtCall.tokenFetch, ExtCall.decryptTok,
          ExtCall.calendarCreate ev] ∧
      ev.endTime = ev.startTime + 60 * 30 :=
  ⟨rfl, c5_coerced_duration_window (mkEnv goodPlan) _ _ _ _ 30 _ _ _
    rfl rfl rfl rfl rfl rfl rfl rfl rfl⟩

/-- C8: on a pipeline run that reaches the calendar call, a plan whose
`recurrence_rrule` is `FREQ=WEEKLY;COUNT=5` yields a submitted event whose
recurrence is exactly the single-element list `["RRULE:FREQ=WEEKLY;COUNT=5"]`
(actions.py line 102), and a plan with no `recurrence_rrule` key yields an
event record with the recurrence key absent, not an empty list
(google_service.py lines 136-139). -/
theorem c8_recurrence_wire_format (env : Env) (g a : Json)
    (kvs : List (String × Json)) (dv : Json) (n : Int) (s etok rtok : String)
    (hg : env.goalFetch = some (some g))
    (ha : env.aiCall = CallResult.ok a)
    (hd : pyGetAttr a "data" = some (Json.obj kvs))
    (ht : env.tokenFetch = some (some etok))
    (hdec : env.decryptRes = some rtok)
    (hkeys : allKeysIn (Json.obj kvs)
      ["title", "description", "duration_minutes", "start_time_iso"] = some true)
    (hdv : lookupKV kvs "duration_minutes" = some dv)
    (hn : pyInt dv = some n)
    (hsv : lookupKV kvs "start_time_iso" = some (Json.str s)) :
    (lookupKV kvs "recurrence_rrule" = some (Json.str "FREQ=WEEKLY;COUNT=5") →
      ∃ ev : GEvent,
        (execute_ai_action env "schedule_task").2 =
          [ExtCall.fetchGoal, ExtCall.aiCall, ExtCall.tokenFetch, ExtCall.decryptTok,
            ExtCall.calendarCreate ev] ∧
        ev.recurrence = some ["RRULE:FREQ=WEEKLY;COUNT=5"]) ∧
    (lookupKV kvs "recurrence_rrule" = none →
      ∃ ev : GEvent,
        (execute_ai_action env "schedule_task").2 =
          [ExtCall.fetchGoal, ExtCall.aiCall, ExtCall.tokenFetch, ExtCall.decryptTok,
            ExtCall.calendarCreate ev] ∧
        ev.recurrence = none) := by
  have htr : truthy (Json.obj kvs) = true := by
    cases kvs with
    | nil => simp [lookupKV] at hdv
    | cons p ps => simp [truthy]
  have htru : truthy (Json.str "FREQ=WEEKLY;COUNT=5") = true := rfl
  have hnull : truthy Json.null = false := rfl
  constructor <;> intro hrr <;>
    rcases hcr : env.calendarRes with m | c
  · simp [execute_ai_action, scheduleTask, hg, ha, hd, ht, hdec, hcr, htr, hkeys,
      pySubscript_obj, pyGetAttr_obj, hdv, hn, hsv, hrr, htru, resolveStart,
      create_calendar_event, pyStr]
  · rcases hs1 : pyGetAttr c "summary" with _ | s1 <;>
      rcases hs2 : pyGetAttr c "htmlLink" with _ | l1 <;>
      simp [execute_ai_action, scheduleTask, hg, ha, hd, ht, hdec, hcr, htr, hkeys,
        pySubscript_obj, pyGetAttr_obj, hdv, hn, hsv, hrr, htru, resolveStart,
        hs1, hs2, create_calendar_event, pyStr]
  · simp [execute_ai_action, scheduleTask, hg, ha, hd, ht, hdec, hcr, htr, hkeys,
      pySubscript_obj, pyGetAttr_obj, hdv, hn, hsv, hrr, resolveStart,
      create_calendar_event, hnull]
  · rcases hs1 : pyGetAttr c "summary" with _ | s1 <;>
      rcases hs2 : pyGetAttr c "htmlLink" with _ | l1 <;>
      simp [execute_ai_action, scheduleTask, hg, ha, hd, ht, hdec, hcr, htr, hkeys,
        pySubscript_obj, pyGetAttr_obj, hdv, hn, hsv, hrr, resolveStart,
        hs1, hs2, create_calendar_event, hnull]

/-- The good plan extended with the weekly recurrence rule. -/
def goodPlanRec : Json :=
  .obj [("title", .str "T"), ("description", .str "D"),
        ("duration_minutes", .int 30),
        ("start_time_iso", .str "2025-01-01T10:00:00Z"),
        ("recurrence_rrule", .str "FREQ=WEEKLY;COUNT=5")]

/-- Witness for C8 at a concrete plan carrying the weekly recurrence rule. -/
theorem c8_recurrence_wire_format_witness :
    lookupKV [("title", Json.str "T"), ("description", Json.str "D"),
        ("duration_minutes", Json.int 30),
        ("start_time_iso", Json.str "2025-01-01T10:00:00Z"),
        ("recurrence_rrule", Json.str "FREQ=WEEKLY;COUNT=5")] "recurrence_rrule"
      = some (Json.str "FREQ=WEEKLY;COUNT=5") ∧
    ∃ ev : GEvent,
      (execute_ai_action (mkEnv goodPlanRec) "schedule_task").2 =
        [ExtCall.fetchGoal, ExtCall.aiCall, ExtCall.tokenFetch, ExtCall.decryptTok,
          ExtCall.calendarCreate ev] ∧
      ev.recurrence = some ["RRULE:FREQ=WEEKLY;COUNT=5"] :=
  ⟨rfl, (c8_recurrence_wire_format (mkEnv goodPlanRec) _ _ _ _ 30 _ _ _
    rfl rfl rfl rfl rfl rfl rfl rfl rfl).1 rfl⟩

/-- C10: a plan whose `recurrence_rrule` key is present but equal to the empty
string behaves like a plan with no rule: the empty string is falsy, so
`recurrence_list` is `None` (actions.py line 102), the submitted event record
omits the recurrence key, and on provider success the response reports
`recurrence_applied = false` (line 121). -/
theorem c10_empty_rrule_treated_as_absent (env : Env) (g a c s1 l1 : Json)
    (kvs : List (String × Json)) (dv : Json) (n : Int) (s etok rtok : String)
    (hg : env.goalFetch = some (some g))
    (ha : env.aiCall = CallResult.ok a)
    (hd : pyGetAttr a "data" = some (Json.obj kvs))
    (ht : env.tokenFetch = some (some etok))
    (hdec : env.decryptRes = some rtok)
    (hkeys : allKeysIn (Json.obj kvs)
      ["title", "description", "duration_minutes", "start_time_iso"] = some true)
    (hdv : lookupKV kvs "duration_minutes" = some dv)
    (hn : pyInt dv = some n)
    (hsv : lookupKV kvs "start_time_iso" = some (Json.str s))
    (hrr : lookupKV kvs "recurrence_rrule" = some (Json.str ""))
    (hcr : env.calendarRes = Except.ok c)
    (hs1 : pyGetAttr c "summary" = some s1)
    (hs2 : pyGetAttr c "htmlLink" = some l1) :
    ∃ ev : GEvent,
      (execute_ai_action env "schedule_task").2 =
        [ExtCall.fetchGoal, ExtCall.aiCall, ExtCall.tokenFetch, ExtCall.decryptTok,
          ExtCall.calendarCreate ev] ∧
      ev.recurrence = none ∧
      (execute_ai_action env "schedule_task").1 =
        HRes.success "Task scheduled successfully" s1 l1 false := by
  have htr : truthy (Json.obj kvs) = true := by
    cases kvs with
    | nil => simp [lookupKV] at hdv
    | cons p ps => simp [truthy]
  have hempty : truthy (Json.str "") = false := rfl
  simp [execute_ai_action, scheduleTask, hg, ha, hd, ht, hdec, hcr, htr, hkeys,
    pySubscript_obj, pyGetAttr_obj, hdv, hn, hsv, hrr, hempty, resolveStart,
    hs1, hs2, create_calendar_event]

/-- The good plan extended with an empty recurrence rule. -/
def goodPlanEmptyRec : Json :=
  .obj [("title", .str "T"), ("description", .str "D"),
        ("duration_minutes", .int 30),
        ("start_time_iso", .str "2025-01-01T10:00:00Z"),
        ("recurrence_rrule", .str "")]

/-- Witness for C10 at a concrete plan carrying an empty recurrence rule. -/
theorem c10_empty_rrule_treated_as_absent_witness :
    lookupKV [("title", Json.str "T"), ("description", Json.str "D"),
        ("duration_minutes", Json.int 30),
        ("start_time_iso", Json.str "2025-01-01T10:00:00Z"),
        ("recurrence_rrule", Json.str "")] "recurrence_rrule"
      = some (Json.str "") ∧
    ∃ ev : GEvent,
      (execute_ai_action (mkEnv goodPlanEmptyRec) "schedule_task").2 =
        [ExtCall.fetchGoal, ExtCall.aiCall, ExtCall.tokenFetch, ExtCall.decryptTok,
          ExtCall.calendarCreate ev] ∧
      ev.recurrence = none ∧
      (execute_ai_action (mkEnv goodPlanEmptyRec) "schedule_task").1 =
        HRes.success "Task scheduled successfully" (.str "T") (.str "http://x") false :=
  ⟨rfl, c10_empty_rrule_treated_as_absent (mkEnv goodPlanEmptyRec) _ _ _ _ _ _ _ 30 _ _ _
    rfl rfl rfl rfl rfl rfl rfl rfl rfl rfl rfl rfl rfl⟩
